import Mathlib

/-!
Verification of the Investa group-investment frontend core logic.

The definitions below are a shallow embedding of the JavaScript source:

* InvestmentPage.jsx: vote aggregation display (pendingVotesPerRec,
  approvedRecommendations filter, allMembersVotedOnAll, allMembersVotedToStop,
  execute and end-investment gates, end-investment summary amounts).
* RecommendationCard.jsx: the isApproved decision rule.
* Analytics.jsx: the ended-room status filter.
* RoomDetail.jsx: getStatusColor.
* ContributeModal.jsx: validateForm and handleSubmit.
* api/analytics.js: createSeededRandom (xmur3 + mulberry32) and
  fetchInvestmentRecommendations.

JavaScript numbers that hold money or vote counts are modelled as exact
rationals and integers; 32-bit integer operations of the seeded PRNG are
modelled as naturals reduced modulo 2^32 (Math.imul, `^`, `|`, `>>>` and
`<<` all coincide with unsigned arithmetic modulo 2^32 on the bit level).
-/

/-- Vote tally attached to one recommendation, as in `rec.votes`
(approve and reject counts; the pending count is derived). -/
structure VoteTally where
  approve : ℤ
  reject : ℤ
deriving DecidableEq, Repr

/-- RecommendationCard.jsx lines 178-180 and InvestmentPage.jsx lines 247-249:
`votes.approve > votes.reject && votes.approve >= Math.ceil(totalMembers / 2)`.
JavaScript `Math.ceil(totalMembers / 2)` on integers is the exact ceiling of
the rational totalMembers / 2 (division by 2 is exact in floating point). -/
def isApproved (approve reject totalMembers : ℤ) : Bool :=
  decide (reject < approve) && decide ((⌈(totalMembers : ℚ) / 2⌉ : ℤ) ≤ approve)

/-- InvestmentPage.jsx lines 253-258 (also 101, 180, 204):
`Math.max(0, Number(room.members || 0) - approve - reject)`. -/
def pendingVotesPerRec (members approve reject : ℤ) : ℤ :=
  max 0 (members - approve - reject)

/-- InvestmentPage.jsx line 259:
`recommendations.length === 0 ? false : recommendations.every((r) => pendingVotesPerRec(r) === 0)`.
This boolean gates the Execute Investment button (disabled flag and the
onClick guard both require it). -/
def allMembersVotedOnAll (members : ℤ) (recs : List VoteTally) : Bool :=
  if recs.isEmpty then false
  else recs.all (fun v => pendingVotesPerRec members v.approve v.reject == 0)

/-- Stop-vote aggregate for one allocated asset as delivered by
`fetchStopVoteAggregate` (fields read by InvestmentPage.jsx line 265). -/
structure StopAgg where
  votes : ℤ
  threshold : ℤ
deriving DecidableEq, Repr

/-- Modelled from the spec: the backend aggregateStop threshold is
`ceil(totalMembers * 0.7)`. The backend service that computes the threshold
is not part of the sources; only its consumer (InvestmentPage.jsx) is. -/
def stopThreshold (totalMembers : ℤ) : ℤ :=
  ⌈(totalMembers : ℚ) * 7 / 10⌉

/-- Modelled from the spec: the backend stop aggregate pairs the recorded
stop-vote count with the threshold `ceil(totalMembers * 0.7)`. -/
def aggregateStop (stopVotes totalMembers : ℤ) : StopAgg :=
  ⟨stopVotes, stopThreshold totalMembers⟩

/-- InvestmentPage.jsx lines 263-266:
`activeInvestments.length > 0 && activeInvestments.every((rec) => {
   const agg = stopAggs[rec.id]; return agg && agg.votes >= agg.threshold })`.
A missing aggregate (lookup returned nothing) makes the conjunct false. -/
def allMembersVotedToStop (aggs : List (Option StopAgg)) : Bool :=
  (!aggs.isEmpty) && aggs.all (fun o =>
    match o with
    | some a => decide (a.threshold ≤ a.votes)
    | none => false)

/-- InvestmentPage.jsx line 458 together with handleEndInvestment lines 268-271:
the end-investment section renders only when
`mode === "stop" && allMembersVotedToStop && room.isCreator`, and the click
handler returns early unless `room.isCreator`. -/
def endInvestmentGate (mode : String) (isCreator : Bool) (aggs : List (Option StopAgg)) : Bool :=
  (mode == "stop") && allMembersVotedToStop aggs && isCreator

/-- InvestmentPage.jsx line 569: the amount shown for an approved
recommendation is `(room.collected * rec.allocation) / 100` (exact division,
no rounding). -/
def allocationAmount (collected allocation : ℚ) : ℚ :=
  collected * allocation / 100

/-- InvestmentPage.jsx line 576: total investment amount,
`reduce((sum, rec) => sum + (room.collected * rec.allocation) / 100, 0)`. -/
def approvedTotalAmount (collected : ℚ) (allocs : List ℚ) : ℚ :=
  allocs.foldl (fun s a => s + collected * a / 100) 0

/-- Analytics.jsx lines 169-170, 198, 282, 482, 487-488: a room counts as
ended when `r.status === "closed" || r.status === "ended"`. -/
def roomStatusIsEnded (s : String) : Bool :=
  s == "closed" || s == "ended"

/-- The closed status enumeration of the data model, following the spec
words: lifecycle status is one of open, ready, investing, closed. Written
for comparison with roomStatusIsEnded. -/
def inStatusEnum (s : String) : Bool :=
  s == "open" || s == "ready" || s == "investing" || s == "closed"

/-- RoomDetail.jsx lines 146-159: getStatusColor switch over the status
string; unknown statuses fall through to the empty string. -/
def getStatusColor (s : String) : String :=
  if s == "open" then "status-open"
  else if s == "ready" then "status-ready"
  else if s == "investing" then "status-investing"
  else if s == "closed" then "status-closed"
  else ""

/-- InvestmentPage.jsx line 477: the end-investment summary shows
Current Value as `room.collected * 1.15`. -/
def endInvestmentCurrentValue (collected : ℚ) : ℚ :=
  collected * 1.15

/-- InvestmentPage.jsx line 481: the end-investment summary shows
Total Profit as `room.collected * 0.15`. -/
def endInvestmentProfit (collected : ℚ) : ℚ :=
  collected * 0.15

/-- JavaScript comparison `a <= 0` where a = parseFloat(input); `none`
stands for NaN, for which every comparison is false. -/
def jsLeZero : Option ℚ → Bool
  | none => false
  | some a => decide (a ≤ 0)

/-- JavaScript comparison `a < x` with NaN (none) compared false. -/
def jsLtC (p : Option ℚ) (x : ℚ) : Bool :=
  match p with
  | none => false
  | some a => decide (a < x)

/-- JavaScript comparison `a > x` with NaN (none) compared false. -/
def jsGtC (p : Option ℚ) (x : ℚ) : Bool :=
  match p with
  | none => false
  | some a => decide (x < a)

/-- ContributeModal.jsx lines 46-63: validateForm sets an amount error via
`if (!formData.amount || amount <= 0) ... else if (amount < 100) ...
else if (amount > 1000000) ... else if (!wallet || walletLoading) ...
else if (amount > (wallet?.balance || 0)) ...`.
amountGiven is the JavaScript truthiness of the amount string, parsed is
the parseFloat result (none = NaN), wallet is the loaded balance. -/
def validateForm (amountGiven : Bool) (parsed : Option ℚ)
    (wallet : Option ℚ) (walletLoading : Bool) : Bool :=
  if !amountGiven || jsLeZero parsed then true
  else if jsLtC parsed 100 then true
  else if jsGtC parsed 1000000 then true
  else if wallet.isNone || walletLoading then true
  else jsGtC parsed (wallet.getD 0)

/-- ContributeModal.jsx lines 65-88: handleSubmit calls createContribution
exactly when validateForm produced no errors. -/
def handleSubmitProceeds (amountGiven : Bool) (parsed : Option ℚ)
    (wallet : Option ℚ) (walletLoading : Bool) : Bool :=
  !(validateForm amountGiven parsed wallet walletLoading)

/-- The amount-error condition exactly as claim C10 words it: the parsed
amount is not greater than 0, is below 100, is above 1000000, the wallet is
still loading, or the amount exceeds the wallet balance. none = NaN. -/
def contributionAmountErrorSpec (parsed : Option ℚ) (walletLoading : Bool)
    (balance : ℚ) : Prop :=
  (¬ ∃ a, parsed = some a ∧ 0 < a) ∨
  (∃ a, parsed = some a ∧ a < 100) ∨
  (∃ a, parsed = some a ∧ 1000000 < a) ∨
  walletLoading = true ∨
  (∃ a, parsed = some a ∧ balance < a)

/-- Math.imul on 32-bit values: the signed 32-bit product agrees with the
unsigned product modulo 2^32 on the bit level. -/
def imul32 (a b : ℕ) : ℕ :=
  a * b % 4294967296

/-- analytics.js line 115: `h = (h << 13) | (h >>> 19)` on a 32-bit value,
a left rotation by 13. -/
def rotl13 (h : ℕ) : ℕ :=
  h * 8192 % 4294967296 ||| h / 524288

/-- analytics.js lines 113-115, one xmur3 loop step:
`h = Math.imul(h ^ str.charCodeAt(i), 3432918353); h = (h << 13) | (h >>> 19)`. -/
def xmur3Step (h c : ℕ) : ℕ :=
  rotl13 (imul32 (h ^^^ c) 3432918353)

/-- analytics.js lines 112-116: the xmur3 hash state after absorbing the
string, starting from `h = 1779033703 ^ str.length`. -/
def xmur3State (s : String) : ℕ :=
  s.toList.foldl (fun h ch => xmur3Step h ch.toNat) (1779033703 ^^^ s.length)

/-- analytics.js lines 117-122: the xmur3 output mix,
`h = Math.imul(h ^ (h >>> 16), 2246822507);
 h = Math.imul(h ^ (h >>> 13), 3266489909);
 h ^= h >>> 16; return h >>> 0`. -/
def xmur3Out (h : ℕ) : ℕ :=
  let h1 := imul32 (h ^^^ h / 65536) 2246822507
  let h2 := imul32 (h1 ^^^ h1 / 8192) 3266489909
  h2 ^^^ h2 / 65536

/-- JavaScript `a || b` on strings: the empty string is the only falsy
string value (an absent field behaves the same way here). -/
def jsOrS (a b : String) : String :=
  if a == "" then b else a

/-- analytics.js lines 109-135: createSeededRandom hashes the seed string
(falling back to "investa-demo" when falsy) with xmur3 and uses the single
hash output as the initial mulberry32 state. -/
def createSeededRandom (s : String) : ℕ :=
  xmur3Out (xmur3State (jsOrS s "investa-demo"))

/-- analytics.js lines 125-131, one mulberry32 output for state a (after
the increment): `t = Math.imul(t ^ (t >>> 15), t | 1);
t ^= t + Math.imul(t ^ (t >>> 7), t | 61); return ((t ^ (t >>> 14)) >>> 0)`,
scaled by 2^32 later at the call sites. -/
def mulberry32Val (a : ℕ) : ℕ :=
  let t0 := a % 4294967296
  let t1 := imul32 (t0 ^^^ t0 / 32768) (t0 ||| 1)
  let t2 := (t1 + imul32 (t1 ^^^ t1 / 128) (t1 ||| 61)) % 4294967296
  let t3 := t1 ^^^ t2
  t3 ^^^ t3 / 16384

/-- One rng() call: the state grows by 0x6D2B79F5 and the output is
mulberry32Val of the new state; rng() returns that value divided by 2^32,
so every consumer multiplies first and floors, which is exact integer
arithmetic. -/
def rngNext (a : ℕ) : ℕ × ℕ :=
  (a + 1831565813, mulberry32Val (a + 1831565813))

/-- analytics.js lines 137-141: randomInt(min, max) =
`Math.floor(rng() * (max - min + 1)) + min`. -/
def randomIntS (st lo hi : ℕ) : ℕ × ℕ :=
  let p := rngNext st
  (p.1, p.2 * (hi - lo + 1) / 4294967296 + lo)

/-- One entry of the recommendation universe (symbol and display name). -/
structure AssetSym where
  symbol : String
  name : String
deriving DecidableEq, Repr

/-- analytics.js lines 143-153: pick(array, n) repeatedly splices out the
element at index `Math.floor(rng() * copy.length)` until n elements are
drawn or the copy is exhausted. -/
def pickS : ℕ → List AssetSym → ℕ → ℕ × List AssetSym
  | st, _, 0 => (st, [])
  | st, [], _ + 1 => (st, [])
  | st, copy, n + 1 =>
    let p := rngNext st
    let idx := p.2 * copy.length / 4294967296
    let chosen := copy.getD idx ⟨"", ""⟩
    let rest := pickS p.1 (copy.eraseIdx idx) n
    (rest.1, chosen :: rest.2)

/-- analytics.js lines 161-167: the stocks universe. -/
def stocksUniverse : List AssetSym :=
  [⟨"EABL", "East African Breweries"⟩, ⟨"SCOM", "Safaricom"⟩,
   ⟨"KCB", "KCB Group"⟩, ⟨"EQTY", "Equity Group"⟩, ⟨"BATK", "BAT Kenya"⟩]

/-- analytics.js lines 168-172: the ETF universe. -/
def etfsUniverse : List AssetSym :=
  [⟨"GVT-ETF", "Govt Bonds ETF (Kenya)"⟩, ⟨"AFRI-ETF", "Africa Markets ETF"⟩,
   ⟨"KSH-INDEX", "Kenya 25 Index ETF"⟩]

/-- analytics.js lines 173-177: the bonds universe. -/
def bondsUniverse : List AssetSym :=
  [⟨"KSH-BOND-2Y", "Kenya T-Bond 2Y"⟩, ⟨"KSH-BOND-5Y", "Kenya T-Bond 5Y"⟩,
   ⟨"KSH-BOND-10Y", "Kenya T-Bond 10Y"⟩]

/-- analytics.js lines 178-182: the crypto universe. -/
def cryptoUniverse : List AssetSym :=
  [⟨"BTC", "Bitcoin"⟩, ⟨"ETH", "Ethereum"⟩, ⟨"USDT", "Tether"⟩]

/-- analytics.js lines 160-183: universe lookup by pool name. -/
def universeOf (p : String) : List AssetSym :=
  if p == "stocks" then stocksUniverse
  else if p == "etfs" then etfsUniverse
  else if p == "bonds" then bondsUniverse
  else if p == "crypto" then cryptoUniverse
  else []

/-- analytics.js lines 185-193: typeToPool lookup; unknown or missing
types fall back to the mixed pool list. -/
def typeToPool (t : String) : List String :=
  if t == "stocks" then ["stocks", "etfs"]
  else if t == "etf" then ["etfs", "stocks"]
  else if t == "bonds" then ["bonds", "etfs"]
  else if t == "crypto" then ["crypto", "etfs"]
  else ["stocks", "etfs", "bonds", "crypto"]

/-- analytics.js lines 198-203: riskMap lookup; unknown or missing risk
levels fall back to the moderate band. -/
def riskMapOf (r : String) : List String :=
  if r == "conservative" then ["low", "moderate"]
  else if r == "moderate" then ["moderate", "moderate-high"]
  else if r == "aggressive" then ["moderate-high", "high"]
  else ["moderate", "moderate-high"]

/-- analytics.js line 207: `const baseAllocations = [40, 30, 20, 10]`. -/
def baseAllocations : List ℚ :=
  [40, 30, 20, 10]

/-- JavaScript `s.includes(pat)` for a nonempty pattern. -/
def strContains (s pat : String) : Bool :=
  (s.splitOn pat).length != 1

/-- analytics.js lines 209-211: the displayed item type, derived from the
pool list and the symbol. -/
def itemType (pools : List String) (sym : String) : String :=
  if pools.contains "bonds" && strContains sym "BOND" then "Bond"
  else if pools.contains "etfs" && strContains sym "ETF" then "ETF"
  else if pools.contains "crypto" && (sym == "BTC" || sym == "ETH" || sym == "USDT") then "Crypto"
  else "Stock"

/-- analytics.js line 224: expected-return band per item type. -/
def expectedReturnOf (ty : String) : String :=
  if ty == "Bond" then "6-9%"
  else if ty == "ETF" then "8-12%"
  else if ty == "Crypto" then "15-35%"
  else "10-18%"

/-- analytics.js line 227: fee rate per item type (note the trailing space
in the source literal). -/
def feesOf (ty : String) : String :=
  if ty == "ETF" then "0.15%" else "0% "

/-- analytics.js line 229: static details object per item type, modelled
as key-value pairs. -/
def detailsOf (ty : String) : List (String × String) :=
  if ty == "ETF" then [("sector", "Diversified"), ("holdings", "25")]
  else if ty == "Bond" then [("term", "2-5 years")]
  else [("sector", "Various")]

/-- JavaScript Math.round on the exact rational value (round half up). -/
def jsRound (x : ℚ) : ℤ :=
  ⌊x + 1 / 2⌋

/-- analytics.js line 213: `allowedRisks[Math.min(idx, allowedRisks.length - 1)]`. -/
def riskAt (allowed : List String) (idx : ℕ) : String :=
  allowed.getD (min idx (allowed.length - 1)) ""

/-- Initial vote structure of a generated recommendation
(analytics.js lines 215-217 and 228). -/
structure RecVotes where
  approve : ℤ
  reject : ℤ
  pending : ℤ
deriving DecidableEq, Repr

/-- One generated recommendation item (analytics.js lines 218-230). -/
structure Recommendation where
  id : String
  type : String
  name : String
  description : String
  allocation : ℚ
  expectedReturn : String
  riskLevel : String
  minInvestment : ℤ
  fees : String
  votes : RecVotes
  details : List (String × String)
deriving DecidableEq, Repr

/-- analytics.js lines 208-231: the picks.map body. The allocation is
`baseAllocations[idx] || randomInt(10, 25)` (the fallback consumes the rng
only when the base entry is missing), minInvestment is
`Math.max(1000, Math.round((total * allocation) / 100 / 10) * 10)`, and the
initial votes are approve 0, reject 0, pending `Math.max(0, members || 0)`. -/
def buildItems (pools allowedRisks : List String) (total : ℚ) (members : ℤ) :
    ℕ → ℕ → List AssetSym → ℕ × List Recommendation
  | st, _, [] => (st, [])
  | st, idx, p :: rest =>
    let alloc : ℕ × ℚ :=
      match baseAllocations.get? idx with
      | some v => (st, v)
      | none => let q := randomIntS st 10 25; (q.1, (q.2 : ℚ))
    let ty := itemType pools p.symbol
    let item : Recommendation :=
      { id := p.symbol ++ "-" ++ toString idx
        type := ty
        name := p.name ++ " (" ++ p.symbol ++ ")"
        description := "Demo recommendation for " ++ p.name ++ "."
        allocation := alloc.2
        expectedReturn := expectedReturnOf ty
        riskLevel := riskAt allowedRisks idx
        minInvestment := max 1000 (jsRound (total * alloc.2 / 100 / 10) * 10)
        fees := feesOf ty
        votes := ⟨0, 0, max 0 members⟩
        details := detailsOf ty }
    let rest2 := buildItems pools allowedRisks total members alloc.1 (idx + 1) rest
    (rest2.1, item :: rest2.2)

/-- analytics.js lines 155-233 without the seed construction: seed the rng,
assemble the pool, pick `min(4, max(2, floor(pool.length / 2)))` items and
map them to recommendation items. -/
def recsFromSeed (seed riskLevel ty : String) (collected : ℚ) (members : ℤ) :
    List Recommendation :=
  let a0 := createSeededRandom seed
  let pools := typeToPool (jsOrS ty "mixed")
  let poolItems := (pools.map universeOf).flatten
  let count := min 4 (max 2 (poolItems.length / 2))
  let pk := pickS a0 poolItems count
  let allowedRisks := riskMapOf (jsOrS riskLevel "moderate")
  (buildItems pools allowedRisks collected members pk.1 0 pk.2).2

/-- The room fields read by fetchInvestmentRecommendations; absent string
fields are the empty string (both are falsy in the source). -/
structure RecRoom where
  id : String
  roomCode : String
  name : String
  riskLevel : String
  type : String
  collected : ℚ
  members : ℤ
deriving DecidableEq, Repr

/-- analytics.js line 156: the seed string
`id || roomCode || name || "room"` joined with riskLevel (default
moderate) and type (default mixed) by "|". -/
def recSeed (r : RecRoom) : String :=
  jsOrS (jsOrS (jsOrS r.id r.roomCode) r.name) "room" ++ "|" ++
    jsOrS r.riskLevel "moderate" ++ "|" ++ jsOrS r.type "mixed"

/-- analytics.js lines 155-234: fetchInvestmentRecommendations. -/
def fetchInvestmentRecommendations (r : RecRoom) : List Recommendation :=
  recsFromSeed (recSeed r) r.riskLevel r.type r.collected r.members

/-- Claim C9 exactly as stated: equality of the id, riskLevel, type,
collected and members fields of two rooms makes the recommendation lists
identical. -/
def c9ClaimProp : Prop :=
  ∀ r1 r2 : RecRoom, r1.id = r2.id → r1.riskLevel = r2.riskLevel →
    r1.type = r2.type → r1.collected = r2.collected → r1.members = r2.members →
    fetchInvestmentRecommendations r1 = fetchInvestmentRecommendations r2

/-- Claim C1: with non-negative vote counts and a positive member count, a
candidate is approved iff approveCount > rejectCount and
approveCount >= ceil(totalMembers / 2) (equivalently 2 * approveCount >=
totalMembers). -/
theorem c1_approval_rule (a r m : ℤ) (_ha : 0 ≤ a) (_hr : 0 ≤ r) (_hm : 0 < m) :
    isApproved a r m = true ↔ r < a ∧ m ≤ 2 * a := by
  unfold isApproved
  rw [Bool.and_eq_true, decide_eq_true_iff, decide_eq_true_iff]
  constructor
  · rintro ⟨h1, h2⟩
    refine ⟨h1, ?_⟩
    rw [Int.ceil_le, div_le_iff₀ (by norm_num : (0 : ℚ) < 2)] at h2
    have : (m : ℚ) ≤ ((2 * a : ℤ) : ℚ) := by push_cast; linarith
    exact_mod_cast this
  · rintro ⟨h1, h2⟩
    refine ⟨h1, ?_⟩
    rw [Int.ceil_le, div_le_iff₀ (by norm_num : (0 : ℚ) < 2)]
    have : ((m : ℤ) : ℚ) ≤ ((2 * a : ℤ) : ℚ) := by exact_mod_cast h2
    push_cast at this
    linarith

/-- Witness for claim C1 at approve = 3, reject = 1, totalMembers = 4. -/
theorem c1_approval_rule_witness : isApproved 3 1 4 = true :=
  (c1_approval_rule 3 1 4 (by decide) (by decide) (by decide)).mpr (by decide)

/-- Counterexample to claim C2: with approve = 2, reject = 0 in a 4-member
room, the code reports the candidate as approved, not as blocked. -/
theorem c2_not_approved_counterexample : ¬ (isApproved 2 0 4 = false) := by
  rw [Bool.not_eq_false, isApproved, Bool.and_eq_true, decide_eq_true_iff,
    decide_eq_true_iff, show ((4 : ℤ) : ℚ) / 2 = ((2 : ℤ) : ℚ) by norm_num,
    Int.ceil_intCast]
  exact ⟨by norm_num, le_refl 2⟩

/-- Claim C2 (amended): with approve = 2, reject = 0, totalMembers = 4 the
candidate is reported approved (2 > 0 and 2 >= ceil(4/2)), the derived
pending count is 2, and execution is nevertheless blocked because the
pending count is nonzero, so allMembersVotedOnAll is false. -/
theorem c2_approved_despite_pending :
    isApproved 2 0 4 = true ∧
    pendingVotesPerRec 4 2 0 = 2 ∧
    allMembersVotedOnAll 4 [⟨2, 0⟩] = false := by
  refine ⟨?_, by decide, by decide⟩
  rw [isApproved, Bool.and_eq_true, decide_eq_true_iff, decide_eq_true_iff,
    show ((4 : ℤ) : ℚ) / 2 = ((2 : ℤ) : ℚ) by norm_num, Int.ceil_intCast]
  exact ⟨by norm_num, le_refl 2⟩

/-- Claim C3: the execute gate is true exactly when there is at least one
recommendation and every recommendation has pending count zero; with an
empty list, or any recommendation with a nonzero pending count, the execute
action cannot fire. -/
theorem c3_execute_gate (m : ℤ) (recs : List VoteTally) :
    allMembersVotedOnAll m recs = true ↔
      recs ≠ [] ∧ ∀ v ∈ recs, pendingVotesPerRec m v.approve v.reject = 0 := by
  unfold allMembersVotedOnAll
  cases recs with
  | nil => simp
  | cons h t =>
    simp [List.all_eq_true]

/-- Helper: the displayed total is collected * (sum of percentages) / 100. -/
theorem approvedTotalAmount_eq (c : ℚ) (l : List ℚ) :
    approvedTotalAmount c l = c * l.sum / 100 := by
  have key : ∀ (l : List ℚ) (s : ℚ),
      l.foldl (fun s a => s + c * a / 100) s = s + c * l.sum / 100 := by
    intro l
    induction l with
    | nil => intro s; simp
    | cons x xs ih =>
      intro s
      rw [List.foldl_cons, ih, List.sum_cons]
      ring
  unfold approvedTotalAmount
  rw [key]
  ring

/-- Counterexample to claim C4: at collected = 155 and percentage = 10 the
displayed amount is 15.5, not the floor 15; the code divides exactly and
never floors. -/
theorem c4_floor_counterexample :
    allocationAmount 155 10 ≠ ((⌊allocationAmount 155 10⌋ : ℤ) : ℚ) := by
  have h : allocationAmount 155 10 = 31 / 2 := by
    norm_num [allocationAmount]
  rw [h]
  norm_num

/-- Claim C4 (amended): the per-candidate amount is the exact value
collected * percentage / 100 (no rounding); the displayed total equals
collected * (sum of percentages) / 100 and never exceeds the collected
amount when the percentages sum to at most 100. -/
theorem c4_allocation_linear (collected : ℚ) (allocs : List ℚ)
    (hc : 0 ≤ collected) (hs : allocs.sum ≤ 100) :
    approvedTotalAmount collected allocs = collected * allocs.sum / 100 ∧
      approvedTotalAmount collected allocs ≤ collected := by
  have he := approvedTotalAmount_eq collected allocs
  refine ⟨he, ?_⟩
  rw [he, div_le_iff₀ (by norm_num : (0 : ℚ) < 100)]
  exact mul_le_mul_of_nonneg_left hs hc

/-- Witness for claim C4 at collected = 1000 and the base allocation list
40, 30, 20, 10. -/
theorem c4_allocation_witness :
    approvedTotalAmount 1000 [40, 30, 20, 10] ≤ 1000 :=
  (c4_allocation_linear 1000 [40, 30, 20, 10] (by norm_num)
    (by norm_num [List.sum_cons, List.sum_nil])).2

/-- Claim C5: with stop aggregates computed by the spec-modelled backend
aggregateStop, the end-investment action can fire exactly when the page is
in stop mode, the caller is the room creator, there is at least one
allocated asset, and every asset has stopVotes at or above the threshold
ceil(totalMembers * 0.7). -/
theorem c5_end_investment_gate (mode : String) (isCreator : Bool) (m : ℤ)
    (votes : List ℤ) :
    endInvestmentGate mode isCreator
        (votes.map (fun v => some (aggregateStop v m))) = true ↔
      mode = "stop" ∧ isCreator = true ∧ votes ≠ [] ∧
        ∀ v ∈ votes, stopThreshold m ≤ v := by
  unfold endInvestmentGate allMembersVotedToStop aggregateStop
  cases votes with
  | nil => simp
  | cons h t =>
    simp [List.all_eq_true, and_assoc]
    tauto

/-- Claim C6: the derived pending count equals
max(0, members - approve - reject); it is never negative, and it is zero as
soon as approve + reject exceeds members. -/
theorem c6_pending_nonneg (m a r : ℤ) :
    0 ≤ pendingVotesPerRec m a r ∧
    pendingVotesPerRec m a r = (if m - a - r ≤ 0 then 0 else m - a - r) ∧
    (m < a + r → pendingVotesPerRec m a r = 0) := by
  unfold pendingVotesPerRec
  refine ⟨le_max_left 0 _, ?_, ?_⟩
  · rcases le_or_lt (m - a - r) 0 with h | h
    · rw [if_pos h, max_eq_left h]
    · rw [if_neg (not_le.mpr h), max_eq_right (le_of_lt h)]
  · intro h
    exact max_eq_left (by omega)

/-- Witness for claim C6 at members = 4, approve = 3, reject = 2 (votes
exceed members, pending clamps to zero). -/
theorem c6_pending_nonneg_witness : pendingVotesPerRec 4 3 2 = 0 :=
  (c6_pending_nonneg 4 3 2).2.2 (by decide)

/-- Claim C7: the Analytics filters treat the status string "ended" as a
terminal state equivalent to "closed", although "ended" is outside the
closed enumeration open, ready, investing, closed (RoomDetail getStatusColor
does not recognize it either). This exhibits the dual terminal naming. -/
theorem c7_ended_status_alias :
    roomStatusIsEnded "ended" = true ∧
    inStatusEnum "ended" = false ∧
    getStatusColor "ended" = "" ∧
    roomStatusIsEnded "closed" = true := by
  decide

/-- Claim C8: the end-investment summary computes the displayed current
value by the fixed multiplier 1.15 applied to the collected amount, for
every room (evaluated here at collected = 100 and 200). -/
theorem c8_fixed_growth_multiplier :
    endInvestmentCurrentValue 100 = 115 ∧
    endInvestmentCurrentValue 200 = 230 ∧
    endInvestmentProfit 100 = 15 := by
  norm_num [endInvestmentCurrentValue, endInvestmentProfit]

/-- Counterexample to claim C10: a nonempty amount string that parses to
NaN (modelled as none), with the wallet loaded at balance 500, satisfies
the claim error condition (the parsed amount is not greater than 0) yet
validateForm reports no amount error. -/
theorem c10_nan_counterexample :
    contributionAmountErrorSpec none false 500 ∧
    validateForm true none (some 500) false = false := by
  constructor
  · exact Or.inl (by simp)
  · decide

/-- Claim C10 (amended): validateForm flags an amount error exactly when
the amount string is empty, the parsed amount is a number that is at most
0, below 100, or above 1000000, the wallet is absent or still loading, or
the parsed amount is a number exceeding the wallet balance; handleSubmit
calls createContribution exactly when no amount error is flagged. A
nonempty amount that parses to NaN flags no error. -/
theorem c10_validate_amount (g : Bool) (p : Option ℚ) (w : Option ℚ) (l : Bool) :
    (validateForm g p w l = true ↔
      (g = false ∨ (∃ a, p = some a ∧ a ≤ 0) ∨ (∃ a, p = some a ∧ a < 100) ∨
        (∃ a, p = some a ∧ 1000000 < a) ∨ w = none ∨ l = true ∨
        (∃ a b, p = some a ∧ w = some b ∧ b < a))) ∧
    (handleSubmitProceeds g p w l = true ↔ ¬ (validateForm g p w l = true)) := by
  constructor
  · cases g <;> rcases p with _ | a <;> rcases w with _ | b <;> cases l <;>
      simp [validateForm, jsLeZero, jsLtC, jsGtC]
  · unfold handleSubmitProceeds
    cases validateForm g p w l <;> simp

/-- Helper: jsOrS returns its first argument whenever that is truthy. -/
theorem jsOrS_of_ne (a b : String) (h : a ≠ "") : jsOrS a b = a := by
  unfold jsOrS
  simp [h]

set_option maxRecDepth 100000 in
/-- Counterexample to claim C9 as stated: two rooms with equal id (empty),
riskLevel, type, collected and members but different names receive
different recommendation lists, because the seed falls back to
roomCode and then name when the id is falsy. -/
theorem c9_seed_fallback_counterexample : ¬ c9ClaimProp := by
  intro h
  have e := h ⟨"", "", "Alpha", "moderate", "mixed", 10000, 4⟩
    ⟨"", "", "Beta", "moderate", "mixed", 10000, 4⟩ rfl rfl rfl rfl rfl
  have eids := congrArg (List.map (fun i => i.id)) e
  exact absurd eids (by decide)

/-- Claim C9 (amended): for rooms with a truthy (nonempty) id, equality of
the id, riskLevel, type, collected and members fields makes the two
recommendation lists identical (items, order, allocations and initial vote
structures); when the id is absent the roomCode and name enter the seed and
must agree as well. -/
theorem c9_recommendations_deterministic (r1 r2 : RecRoom) (hid : r1.id ≠ "")
    (h1 : r1.id = r2.id) (h2 : r1.riskLevel = r2.riskLevel)
    (h3 : r1.type = r2.type) (h4 : r1.collected = r2.collected)
    (h5 : r1.members = r2.members) :
    fetchInvestmentRecommendations r1 = fetchInvestmentRecommendations r2 := by
  have hid2 : r2.id ≠ "" := h1 ▸ hid
  have hseed : recSeed r1 = recSeed r2 := by
    unfold recSeed
    rw [jsOrS_of_ne r1.id r1.roomCode hid, jsOrS_of_ne r1.id r1.name hid,
      jsOrS_of_ne r1.id "room" hid, jsOrS_of_ne r2.id r2.roomCode hid2,
      jsOrS_of_ne r2.id r2.name hid2, jsOrS_of_ne r2.id "room" hid2,
      h1, h2, h3]
  unfold fetchInvestmentRecommendations
  rw [hseed, h2, h3, h4, h5]

/-- Witness for claim C9 (amended) at two concrete rooms sharing the id
"room-1" but differing in roomCode and name. -/
theorem c9_recommendations_deterministic_witness :
    fetchInvestmentRecommendations ⟨"room-1", "CODE-A", "Alpha", "moderate", "mixed", 10000, 4⟩ =
      fetchInvestmentRecommendations ⟨"room-1", "CODE-B", "Beta", "moderate", "mixed", 10000, 4⟩ :=
  c9_recommendations_deterministic _ _ (by decide) rfl rfl rfl rfl rfl
